import Mathlib

/-!
Verification of the identity reconciliation core of the `yata` repository.

The definitions below are a shallow embedding of the Go code in
`apps/server` and the webhook / JIT-sync handlers given in
`ai_guides/ARCHITECTURE_GUIDE.md`, together with the `users` table schema
(Part 4 of the guide).  Timestamps are modelled as `Nat`; the SQL `NOW()`
value is passed in explicitly as a parameter.
-/

namespace Yata

/-- A row of the `users` table (Part 4 of the architecture guide):
`clerk_id TEXT UNIQUE`, `email`, `name`, `avatar_url`,
`created_at`/`updated_at` defaulting to `NOW()`, and a nullable
`deleted_at` used for soft deletion. -/
structure UserRecord where
  clerkId : String
  email : String
  name : String
  avatarUrl : String
  createdAt : Nat
  updatedAt : Nat
  deletedAt : Option Nat
deriving Repr, DecidableEq

/-- The `users` table, as a list of rows.  The `clerk_id UNIQUE` constraint
is enforced by the operations below, not by the representation. -/
abbrev Store := List UserRecord

/-- One entry of the `email_addresses` array of a Clerk user payload. -/
structure EmailAddress where
  id : String
  emailAddress : String
deriving Repr, DecidableEq

/-- `ClerkUserData` from `webhook_handler.go`: the decoded `data` field of a
`user.created` / `user.updated` webhook envelope. -/
structure ClerkUserData where
  id : String
  firstName : String
  lastName : String
  imageURL : String
  primaryEmailAddressID : String
  emailAddresses : List EmailAddress
deriving Repr, DecidableEq

/-- `getPrimaryEmail` from `webhook_handler.go`: the address whose id matches
`primary_email_address_id`, else the first address, else `""`. -/
def getPrimaryEmail (u : ClerkUserData) : String :=
  match u.emailAddresses.find? (fun addr => addr.id == u.primaryEmailAddressID) with
  | some addr => addr.emailAddress
  | none =>
    match u.emailAddresses with
    | addr :: _ => addr.emailAddress
    | [] => ""

/-- `EXISTS` check on `clerk_id`, i.e. whether an `INSERT` would conflict. -/
def existsClerkId (store : Store) (cid : String) : Bool :=
  store.any (fun r => r.clerkId == cid)

/-- `INSERT INTO users (clerk_id, email, name, avatar_url) VALUES ($1,$2,$3,$4)
ON CONFLICT (clerk_id) DO NOTHING` — `created_at` and `updated_at` take the
schema default `NOW()` (`now`), `deleted_at` defaults to `NULL`. -/
def insertOnConflictDoNothing (store : Store) (cid em nm av : String) (now : Nat) : Store :=
  if existsClerkId store cid then store
  else store ++ [{ clerkId := cid, email := em, name := nm, avatarUrl := av,
                   createdAt := now, updatedAt := now, deletedAt := none }]

/-- `UPDATE users SET email=$1, name=$2, avatar_url=$3, updated_at=NOW()
WHERE clerk_id=$4`.  Note: `deleted_at` is not touched. -/
def updateUserRow (store : Store) (em nm av : String) (now : Nat) (cid : String) : Store :=
  store.map (fun r =>
    if r.clerkId = cid then
      { r with email := em, name := nm, avatarUrl := av, updatedAt := now }
    else r)

/-- `UPDATE users SET deleted_at = NOW() WHERE clerk_id = $1`. -/
def tombstoneRow (store : Store) (now : Nat) (cid : String) : Store :=
  store.map (fun r =>
    if r.clerkId = cid then { r with deletedAt := some now } else r)

/-- A decoded webhook envelope, after the `switch event.Type` in
`ClerkWebhookHandler`.  `other` stands for any event type the switch does not
handle (those fall through with no database write). -/
inductive WebhookEvent where
  | userCreated (d : ClerkUserData)
  | userUpdated (d : ClerkUserData)
  | userDeleted (id : String)
  | other
deriving Repr, DecidableEq

/-- The database writes performed by the `switch event.Type` block of
`ClerkWebhookHandler` (webhook_handler.go), at SQL time `now`. -/
def applyEvent (store : Store) (e : WebhookEvent) (now : Nat) : Store :=
  match e with
  | .userCreated d =>
      insertOnConflictDoNothing store d.id (getPrimaryEmail d)
        (d.firstName ++ " " ++ d.lastName) d.imageURL now
  | .userUpdated d =>
      updateUserRow store (getPrimaryEmail d)
        (d.firstName ++ " " ++ d.lastName) d.imageURL now d.id
  | .userDeleted id => tombstoneRow store now id
  | .other => store

/-- Number of rows for a given `clerk_id`. -/
def countClerk (store : Store) (cid : String) : Nat :=
  (store.filter (fun r => r.clerkId == cid)).length

/-! ## Webhook ingress (ClerkWebhookHandler) -/

/-- One webhook delivery as seen by `ClerkWebhookHandler`: the svix headers
(`svix-id`, `svix-timestamp`) plus two abstractions of the raw body —
whether the HMAC signature over it matches the webhook secret
(`signatureMatches`), and the result of `json.Unmarshal` on it
(`parsedEvent`, `none` when the body is not valid JSON). -/
structure SvixDelivery where
  svixId : String
  svixTimestamp : Int
  signatureMatches : Bool
  parsedEvent : Option WebhookEvent
deriving Repr, DecidableEq

/-- Modelled from the spec: `wh.Verify(body, headers)` of the external svix
library (not part of this repository) verifies the signature over the raw
body and, per the replay-mitigation requirement, rejects deliveries whose
`svix-timestamp` lies outside the acceptable skew window around `now`.
Verification succeeds iff the signature matches and the timestamp is within
`tolerance` of `now`. -/
def svixVerify (d : SvixDelivery) (now tolerance : Int) : Bool :=
  d.signatureMatches && (now - d.svixTimestamp ≤ tolerance && d.svixTimestamp - now ≤ tolerance)

/-- `ClerkWebhookHandler` from `webhook_handler.go`: verify the delivery
with svix (any verification failure answers `401`), parse the envelope
(`400` on invalid JSON), run the event's database writes, answer `200`.
The body is assumed readable, the webhook secret well-formed and the
database available, so the `400` read-error and the two `500` paths of the
Go code do not arise in the model.  There is no `eventId` de-duplication
step.  Returns the new store and the HTTP status. -/
def clerkWebhookHandler (store : Store) (d : SvixDelivery) (now tolerance : Int)
    (dbNow : Nat) : Store × Nat :=
  if svixVerify d now tolerance then
    match d.parsedEvent with
    | none => (store, 400)
    | some ev => (applyEvent store ev dbNow, 200)
  else (store, 401)

/-! ## Session claims, auth middleware, and the `/api/me` handler -/

/-- The fields of clerk-sdk-go's `SessionClaims` that the repository reads:
`Subject`, `ActiveOrganizationID`, `ActiveOrganizationSlug`,
`ActiveOrganizationRole`.  Absent organization context is the empty
string, as in the SDK. -/
structure SessionClaims where
  subject : String
  activeOrganizationID : String
  activeOrganizationSlug : String
  activeOrganizationRole : String
deriving Repr, DecidableEq

/-- A bearer token as the verifier sees it: whether it parses, whether its
signature verifies against the current key, its expiry, and the claims it
carries. -/
structure Token where
  parseable : Bool
  signatureValid : Bool
  expiresAt : Nat
  claims : SessionClaims
deriving Repr, DecidableEq

/-- The authentication error taxonomy of the Session Verifier. -/
inductive AuthError where
  | malformed
  | unverified
  | expired
deriving Repr, DecidableEq

/-- Modelled from the spec: token verification is performed by
clerk-sdk-go's `RequireHeaderAuthorization` (external SDK, not in the
repository); per §4.2 it parses the token, verifies the signature against
the cached key, checks the time-based claims, and fails with `Malformed`,
`Unverified` or `Expired`. -/
def verifyToken (now : Nat) (tok : Token) : Except AuthError SessionClaims :=
  if tok.parseable = false then .error .malformed
  else if tok.signatureValid = false then .error .unverified
  else if tok.expiresAt ≤ now then .error .expired
  else .ok tok.claims

/-- Modelled from the spec: `ClerkAuthMiddleware` wraps the SDK's
`RequireHeaderAuthorization`, which extracts the bearer token from the
`Authorization` header (absence → `401`), verifies it (any failure →
`401`), and otherwise places the claims in the request context. -/
def clerkAuthMiddleware (now : Nat) (authorization : Option Token) :
    Except Nat SessionClaims :=
  match authorization with
  | none => .error 401
  | some tok =>
      match verifyToken now tok with
      | .error _ => .error 401
      | .ok claims => .ok claims

/-- Outcome of a gin middleware: abort with a status and an error body, or
fall through to the next handler. -/
inductive OrgGateOutcome where
  | abort (status : Nat) (errorBody : String)
  | next
deriving Repr, DecidableEq

/-- `RequireOrg` from `clerk_auth.go`: read `SessionClaimsFromContext`; when
the claims are absent (`!ok`) or `ActiveOrganizationID` is the empty
string, abort with `403` and body `{"error": "No organization selected"}`;
otherwise continue the chain. -/
def requireOrg (claims : Option SessionClaims) : OrgGateOutcome :=
  match claims with
  | none => .abort 403 "No organization selected"
  | some cl =>
      if cl.activeOrganizationID = "" then .abort 403 "No organization selected"
      else .next

/-- The JSON answer of a protected API route. -/
inductive ApiResponse where
  | err (status : Nat)
  | meOk (userId orgId orgSlug orgRole : String)
deriving Repr, DecidableEq

/-- `GetMeHandler` from `me_handler.go`: read the claims from the request
context; `401` when absent, else `200` with the subject and organization
fields copied out of the claims. -/
def getMeHandler (claims : Option SessionClaims) : ApiResponse :=
  match claims with
  | none => .err 401
  | some cl => .meOk cl.subject cl.activeOrganizationID cl.activeOrganizationSlug
      cl.activeOrganizationRole

/-- The `/api/me` request path from `main.go`: `ClerkAuthMiddleware`
followed by `GetMeHandler`, threading the Local Identity Store through so
that its (non-)use is visible.  On middleware failure the handler never
runs. -/
def apiMeEndpoint (now : Nat) (authorization : Option Token) (store : Store) :
    ApiResponse × Store :=
  match clerkAuthMiddleware now authorization with
  | .error s => (.err s, store)
  | .ok claims => (getMeHandler (some claims), store)

/-! ## JIT sync (`GetOrCreateUser`) under interleaving -/

/-- Modelled from the spec: `GetUserByClerkID` (called by `GetOrCreateUser`,
body not in the repository snapshot) is the active lookup by `clerk_id`;
per §3 a record with `deletedAt` set is excluded from active lookups. -/
def getUserByClerkID (store : Store) (cid : String) : Option UserRecord :=
  store.find? (fun r => r.clerkId == cid && r.deletedAt == none)

/-- Modelled from the spec: `CreateUser` (called by `GetOrCreateUser`, body
not in the repository snapshot) is a plain `INSERT`; the `clerk_id UNIQUE`
constraint of the schema makes it fail when a row for the id exists. -/
def createUser (store : Store) (rec : UserRecord) : Except Unit Store :=
  if existsClerkId store rec.clerkId then .error ()
  else .ok (store ++ [rec])

/-- Where one `GetOrCreateUser` call stands: before its local lookup, about
to call the Clerk profile API, about to insert, or finished (with the
record, or with an error). -/
inductive CallPhase where
  | start
  | needFetch
  | gotProfile
  | doneOk
  | doneErr
deriving Repr, DecidableEq

/-- One atomic step of a single `GetOrCreateUser` call (user_handler.go):
the lookup, the outbound `clerkuser.Get` profile fetch (counted), and the
`CreateUser` insert are separate steps, so two calls can interleave between
their lookup and their insert.  Returns the store, the outbound-fetch
count, and the call's next phase. -/
def stepCall (sid : String) (profile : UserRecord) (store : Store) (fetches : Nat)
    (p : CallPhase) : Store × Nat × CallPhase :=
  match p with
  | .start =>
      match getUserByClerkID store sid with
      | some _ => (store, fetches, .doneOk)
      | none => (store, fetches, .needFetch)
  | .needFetch => (store, fetches + 1, .gotProfile)
  | .gotProfile =>
      match createUser store profile with
      | .ok store2 => (store2, fetches, .doneOk)
      | .error _ => (store, fetches, .doneErr)
  | .doneOk => (store, fetches, .doneOk)
  | .doneErr => (store, fetches, .doneErr)

/-- Shared state of two concurrent `GetOrCreateUser` calls for the same
subject: the store, the number of outbound profile fetches issued so far,
and each call's phase. -/
structure JitState where
  store : Store
  fetches : Nat
  callA : CallPhase
  callB : CallPhase
deriving Repr, DecidableEq

/-- Run one step of call A (`false`) or call B (`true`). -/
def jitStep (sid : String) (profile : UserRecord) (st : JitState) : Bool → JitState
  | true =>
      match stepCall sid profile st.store st.fetches st.callB with
      | (s, f, p) => { st with store := s, fetches := f, callB := p }
  | false =>
      match stepCall sid profile st.store st.fetches st.callA with
      | (s, f, p) => { st with store := s, fetches := f, callA := p }

/-- Run an interleaving schedule of the two calls. -/
def runJit (sid : String) (profile : UserRecord) : List Bool → JitState → JitState
  | [], st => st
  | w :: rest, st => runJit sid profile rest (jitStep sid profile st w)

/-- Outbound-fetch budget a call can still consume: a call fetches exactly
when it leaves `needFetch`, which it enters at most once. -/
def CallPhase.fetchCredit : CallPhase → Nat
  | .start => 1
  | .needFetch => 1
  | _ => 0

/-- Whether a call has terminated (successfully or with an error). -/
def CallPhase.isDone : CallPhase → Bool
  | .doneOk => true
  | .doneErr => true
  | _ => false

/-- An organization-scoped route, wired as in the guide's router setup:
`ClerkAuthMiddleware` first, then `RequireOrg`; the handler receives the
claims only when both pass. -/
def orgScopedRequest (now : Nat) (authorization : Option Token) :
    Except Nat SessionClaims :=
  match clerkAuthMiddleware now authorization with
  | .error s => .error s
  | .ok claims =>
      match requireOrg (some claims) with
      | .abort s _ => .error s
      | .next => .ok claims

/-- Inductive invariant of the two-call interleaving: at most one row for
the subject exists; the fetch counter plus the calls' remaining fetch
budgets never exceeds two; a finished call implies a row exists. -/
def jitInv (sid : String) (st : JitState) : Prop :=
  countClerk st.store sid ≤ 1
  ∧ st.fetches + st.callA.fetchCredit + st.callB.fetchCredit ≤ 2
  ∧ (st.callA.isDone = true → 1 ≤ countClerk st.store sid)
  ∧ (st.callB.isDone = true → 1 ≤ countClerk st.store sid)

/-! ## Concrete fixtures used by counterexamples and witnesses -/

/-- A soft-deleted (tombstoned) row for subject `u1`. -/
def tombRec : UserRecord :=
  { clerkId := "u1", email := "old@x", name := "Old N", avatarUrl := "a",
    createdAt := 0, updatedAt := 0, deletedAt := some 5 }

/-- An active row for subject `u1`. -/
def actRec : UserRecord :=
  { clerkId := "u1", email := "e", name := "n", avatarUrl := "a",
    createdAt := 0, updatedAt := 0, deletedAt := none }

/-- A `user.updated` payload for subject `u1` with fresh profile fields. -/
def updData : ClerkUserData :=
  { id := "u1", firstName := "New", lastName := "N", imageURL := "b",
    primaryEmailAddressID := "e1",
    emailAddresses := [{ id := "e1", emailAddress := "new@x" }] }

/-- A correctly signed, in-window delivery carrying `user.updated` for `u1`. -/
def updDelivery : SvixDelivery :=
  { svixId := "evt_1", svixTimestamp := 0, signatureMatches := true,
    parsedEvent := some (.userUpdated updData) }

/-- A delivery with a matching signature but a timestamp far outside any
reasonable skew window around `now = 0`. -/
def staleDelivery : SvixDelivery :=
  { svixId := "evt_2", svixTimestamp := 1000, signatureMatches := true,
    parsedEvent := some (.userUpdated updData) }

/-- The provider profile the JIT path fetches for subject `u2`. -/
def jitProfile : UserRecord :=
  { clerkId := "u2", email := "b@x", name := "B", avatarUrl := "",
    createdAt := 0, updatedAt := 0, deletedAt := none }

/-- A well-formed token for subject `user_1` in organization `org_1`. -/
def orgToken : Token :=
  { parseable := true, signatureValid := true, expiresAt := 100,
    claims := { subject := "user_1", activeOrganizationID := "org_1",
                activeOrganizationSlug := "acme", activeOrganizationRole := "org:admin" } }

/-- A well-formed token for subject `user_1` with no active organization. -/
def noOrgToken : Token :=
  { parseable := true, signatureValid := true, expiresAt := 100,
    claims := { subject := "user_1", activeOrganizationID := "",
                activeOrganizationSlug := "", activeOrganizationRole := "" } }

/-! ## Basic lemmas about the store operations -/

theorem existsClerkId_iff (s : Store) (cid : String) :
    existsClerkId s cid = true ↔ ∃ r ∈ s, r.clerkId = cid := by
  simp [existsClerkId, List.any_eq_true]

theorem existsClerkId_append (s1 s2 : Store) (cid : String) :
    existsClerkId (s1 ++ s2) cid = (existsClerkId s1 cid || existsClerkId s2 cid) := by
  simp [existsClerkId, List.any_append]

theorem countClerk_eq_zero_iff (s : Store) (cid : String) :
    countClerk s cid = 0 ↔ existsClerkId s cid = false := by
  simp [countClerk, existsClerkId, List.length_eq_zero, List.filter_eq_nil_iff,
    List.any_eq_true]

theorem countClerk_append (s1 s2 : Store) (cid : String) :
    countClerk (s1 ++ s2) cid = countClerk s1 cid + countClerk s2 cid := by
  simp [countClerk, List.filter_append]

theorem countClerk_one_le (s : Store) (cid : String) (r : UserRecord)
    (hr : r ∈ s) (hc : r.clerkId = cid) : 1 ≤ countClerk s cid := by
  have : r ∈ s.filter (fun x => x.clerkId == cid) := by
    simp [List.mem_filter, hr, hc]
  have hne : s.filter (fun x => x.clerkId == cid) ≠ [] := List.ne_nil_of_mem this
  have := List.length_pos.mpr hne
  simpa [countClerk] using this

theorem existsClerkId_true_count (s : Store) (cid : String)
    (h : existsClerkId s cid = true) : 1 ≤ countClerk s cid := by
  obtain ⟨r, hr, hc⟩ := (existsClerkId_iff s cid).mp h
  exact countClerk_one_le s cid r hr hc

/-- Row updates do not change which `clerk_id`s appear, hence not the count. -/
theorem countClerk_map_preserving (s : Store) (cid : String) (f : UserRecord → UserRecord)
    (hf : ∀ r, (f r).clerkId = r.clerkId) :
    countClerk (s.map f) cid = countClerk s cid := by
  induction s with
  | nil => rfl
  | cons r rest ih =>
      simp only [List.map_cons, countClerk, List.filter_cons] at *
      rw [hf r]
      by_cases h : (r.clerkId == cid) = true
      · simp [h, ih]
      · simp only [Bool.not_eq_true] at h
        simp [h, ih]

theorem countClerk_updateUserRow (s : Store) (em nm av : String) (t : Nat)
    (cid cid2 : String) :
    countClerk (updateUserRow s em nm av t cid) cid2 = countClerk s cid2 := by
  unfold updateUserRow
  apply countClerk_map_preserving
  intro r
  by_cases h : r.clerkId = cid <;> simp [h]

theorem countClerk_tombstoneRow (s : Store) (t : Nat) (cid cid2 : String) :
    countClerk (tombstoneRow s t cid) cid2 = countClerk s cid2 := by
  unfold tombstoneRow
  apply countClerk_map_preserving
  intro r
  by_cases h : r.clerkId = cid <;> simp [h]

/-- After the `ON CONFLICT DO NOTHING` insert a row for the id always exists. -/
theorem existsClerkId_insert (s : Store) (cid em nm av : String) (t : Nat) :
    existsClerkId (insertOnConflictDoNothing s cid em nm av t) cid = true := by
  unfold insertOnConflictDoNothing
  by_cases h : existsClerkId s cid
  · simp [h]
  · simp only [h, Bool.false_eq_true, if_false]
    rw [existsClerkId_append]
    simp [existsClerkId]

/-- A second `UPDATE` of the same row overwrites everything the first wrote. -/
theorem updateUserRow_absorb (s : Store) (e1 n1 a1 : String) (t1 : Nat)
    (em nm av : String) (t : Nat) (cid : String) :
    updateUserRow (updateUserRow s e1 n1 a1 t1 cid) em nm av t cid
      = updateUserRow s em nm av t cid := by
  unfold updateUserRow
  rw [List.map_map]
  congr 1
  funext r
  by_cases h : r.clerkId = cid <;> simp [Function.comp, h]

/-- A second soft delete overwrites the `deleted_at` the first wrote. -/
theorem tombstoneRow_absorb (s : Store) (t1 t2 : Nat) (cid : String) :
    tombstoneRow (tombstoneRow s t1 cid) t2 cid = tombstoneRow s t2 cid := by
  unfold tombstoneRow
  rw [List.map_map]
  congr 1
  funext r
  by_cases h : r.clerkId = cid <;> simp [Function.comp, h]

/-- A conditional row rewrite leaves a list unchanged when no row matches. -/
theorem map_rowUpdate_of_no_match (s : Store) (cid : String) (g : UserRecord → UserRecord)
    (hall : ∀ r ∈ s, r.clerkId ≠ cid) :
    s.map (fun r => if r.clerkId = cid then g r else r) = s := by
  induction s with
  | nil => rfl
  | cons r rest ih =>
      simp only [List.map_cons]
      rw [if_neg (hall r (List.mem_cons_self r rest)),
        ih (fun r2 hr2 => hall r2 (List.mem_cons_of_mem r hr2))]

theorem not_exists_no_match (s : Store) (cid : String)
    (h : existsClerkId s cid = false) : ∀ r ∈ s, r.clerkId ≠ cid := by
  intro r hr hc
  have h2 : existsClerkId s cid = true := (existsClerkId_iff s cid).mpr ⟨r, hr, hc⟩
  rw [h2] at h
  simp at h

/-- `UPDATE ... WHERE clerk_id` is a no-op when no row matches. -/
theorem updateUserRow_of_not_exists (s : Store) (em nm av : String) (t : Nat)
    (cid : String) (h : existsClerkId s cid = false) :
    updateUserRow s em nm av t cid = s :=
  map_rowUpdate_of_no_match s cid
    (fun r => { r with email := em, name := nm, avatarUrl := av, updatedAt := t })
    (not_exists_no_match s cid h)

/-- `UPDATE ... SET deleted_at` is a no-op when no row matches. -/
theorem tombstoneRow_of_not_exists (s : Store) (t : Nat) (cid : String)
    (h : existsClerkId s cid = false) :
    tombstoneRow s t cid = s :=
  map_rowUpdate_of_no_match s cid
    (fun r => { r with deletedAt := some t })
    (not_exists_no_match s cid h)

/-- Every event handler of the webhook switch is idempotent at a fixed SQL
timestamp. -/
theorem applyEvent_idem (s : Store) (e : WebhookEvent) (t : Nat) :
    applyEvent (applyEvent s e t) e t = applyEvent s e t := by
  cases e with
  | userCreated d =>
      show insertOnConflictDoNothing (insertOnConflictDoNothing s d.id _ _ _ t) d.id _ _ _ t
        = insertOnConflictDoNothing s d.id _ _ _ t
      rw [insertOnConflictDoNothing, if_pos (existsClerkId_insert s d.id _ _ _ t)]
  | userUpdated d => exact updateUserRow_absorb s _ _ _ t _ _ _ t d.id
  | userDeleted id => exact tombstoneRow_absorb s t t id
  | other => rfl

/-! ## Claims about the Reconciler (webhook event application) -/

/-- Claim C1 (corrected).  The claim says every upsert event (user-created or
user-updated) inserts when no record exists and otherwise overwrites the
mutable fields, bumps `updatedAt` and clears `deletedAt`.  The code instead
splits the behaviour by event type: `user.created` inserts with
`createdAt = updatedAt = now` and null `deletedAt` only when no row exists
and is a no-op otherwise (`ON CONFLICT DO NOTHING`); `user.updated`
overwrites the mutable fields and `updatedAt` on the existing rows, is a
no-op when no row exists, and never touches `deletedAt` — so no upsert
resurrects a tombstoned record. -/
theorem upsert_semantics (s : Store) (d : ClerkUserData) (now : Nat) :
    (existsClerkId s d.id = false →
      applyEvent s (.userCreated d) now
        = s ++ [{ clerkId := d.id, email := getPrimaryEmail d,
                  name := d.firstName ++ " " ++ d.lastName, avatarUrl := d.imageURL,
                  createdAt := now, updatedAt := now, deletedAt := none }])
    ∧ (existsClerkId s d.id = true → applyEvent s (.userCreated d) now = s)
    ∧ (existsClerkId s d.id = false → applyEvent s (.userUpdated d) now = s)
    ∧ (∀ r ∈ s, r.clerkId = d.id →
        ({ r with email := getPrimaryEmail d, name := d.firstName ++ " " ++ d.lastName,
                  avatarUrl := d.imageURL, updatedAt := now } : UserRecord)
          ∈ applyEvent s (.userUpdated d) now)
    ∧ (∀ r2 ∈ applyEvent s (.userUpdated d) now, ∃ r ∈ s, r2.deletedAt = r.deletedAt) := by
  refine ⟨?_, ?_, ?_, ?_, ?_⟩
  · intro h
    show insertOnConflictDoNothing s d.id _ _ _ now = _
    rw [insertOnConflictDoNothing, if_neg (by simp [h])]
  · intro h
    show insertOnConflictDoNothing s d.id _ _ _ now = _
    rw [insertOnConflictDoNothing, if_pos h]
  · intro h
    exact updateUserRow_of_not_exists s _ _ _ now d.id h
  · intro r hr hc
    show _ ∈ updateUserRow s _ _ _ now d.id
    unfold updateUserRow
    have := List.mem_map_of_mem
      (fun r => if r.clerkId = d.id then
        ({ r with email := getPrimaryEmail d, name := d.firstName ++ " " ++ d.lastName,
                  avatarUrl := d.imageURL, updatedAt := now } : UserRecord)
      else r) hr
    simpa [hc] using this
  · intro r2 hr2
    have hm : r2 ∈ List.map _ s := hr2
    obtain ⟨r, hr, hfr⟩ := List.mem_map.mp hm
    refine ⟨r, hr, ?_⟩
    by_cases h : r.clerkId = d.id
    · rw [if_pos h] at hfr
      rw [← hfr]
    · rw [if_neg h] at hfr
      rw [← hfr]

/-- Claim C1, refuting instance: a `user.updated` event for tombstoned
subject `u1` leaves `deletedAt = some 5` — the upsert does not clear
`deletedAt`, so the record is not resurrected as the claim states. -/
theorem upsert_no_resurrection_cex :
    (applyEvent [tombRec] (.userUpdated updData) 10).map (fun r => r.deletedAt)
      = [some 5]
    ∧ some 5 ≠ (none : Option Nat) := by
  constructor
  · rfl
  · decide

/-- Claim C2 (corrected).  Re-applying the same upsert event is structurally
idempotent: a second `user.created` (at any later SQL time) changes
nothing, and a second `user.updated` leaves the state of a single
application at the later time (last-writer-wins on `updatedAt`); but a
`user.updated` event for a subject with no record leaves zero records, not
the "exactly one record" the claim states — only `user.created` guarantees
the row. -/
theorem upsert_idempotent (s : Store) (d : ClerkUserData) (t1 t2 : Nat) :
    applyEvent (applyEvent s (.userCreated d) t1) (.userCreated d) t2
        = applyEvent s (.userCreated d) t1
    ∧ applyEvent (applyEvent s (.userUpdated d) t1) (.userUpdated d) t2
        = applyEvent s (.userUpdated d) t2
    ∧ (countClerk s d.id = 0 →
        countClerk (applyEvent s (.userCreated d) t1) d.id = 1)
    ∧ (countClerk s d.id = 0 →
        countClerk (applyEvent s (.userUpdated d) t1) d.id = 0) := by
  refine ⟨?_, updateUserRow_absorb s _ _ _ t1 _ _ _ t2 d.id, ?_, ?_⟩
  · show insertOnConflictDoNothing (insertOnConflictDoNothing s d.id _ _ _ t1) d.id _ _ _ t2
      = insertOnConflictDoNothing s d.id _ _ _ t1
    rw [insertOnConflictDoNothing, if_pos (existsClerkId_insert s d.id _ _ _ t1)]
  · intro h
    have hex : existsClerkId s d.id = false := (countClerk_eq_zero_iff s d.id).mp h
    show countClerk (insertOnConflictDoNothing s d.id _ _ _ t1) d.id = 1
    rw [insertOnConflictDoNothing, if_neg (by simp [hex]), countClerk_append, h]
    simp [countClerk]
  · intro h
    show countClerk (updateUserRow s _ _ _ t1 d.id) d.id = 0
    rw [countClerk_updateUserRow, h]

/-- Claim C2, refuting instance: the same `user.updated` event applied twice
to the empty store leaves zero records for its subject, not exactly one. -/
theorem upsert_twice_zero_records_cex :
    countClerk (applyEvent (applyEvent [] (.userUpdated updData) 1)
        (.userUpdated updData) 1) "u1" = 0
    ∧ (0 : Nat) ≠ 1 := by
  constructor
  · rfl
  · decide

/-- Claim C6 (corrected).  A delete event sets `deletedAt := now` on the
subject's rows and is an error-free no-op when no record exists; but a
second delete re-runs the same `UPDATE` and overwrites `deletedAt` with its
own `now` (two deletes compose to the last one alone), rather than keeping
the first applied value as the claim states. -/
theorem delete_semantics (s : Store) (id : String) (t1 t2 : Nat) :
    (∀ r ∈ applyEvent s (.userDeleted id) t1, r.clerkId = id → r.deletedAt = some t1)
    ∧ (existsClerkId s id = false → applyEvent s (.userDeleted id) t1 = s)
    ∧ applyEvent (applyEvent s (.userDeleted id) t1) (.userDeleted id) t2
        = applyEvent s (.userDeleted id) t2 := by
  refine ⟨?_, ?_, tombstoneRow_absorb s t1 t2 id⟩
  · intro r hr hc
    have hm : r ∈ List.map _ s := hr
    obtain ⟨r0, _, hfr⟩ := List.mem_map.mp hm
    by_cases h : r0.clerkId = id
    · rw [if_pos h] at hfr
      rw [← hfr]
    · rw [if_neg h] at hfr
      rw [← hfr] at hc
      exact absurd hc h
  · intro h
    exact tombstoneRow_of_not_exists s t1 id h

/-- Claim C6, refuting instance: deleting subject `u1` at time 1 and again
at time 2 leaves `deletedAt = some 2`, the second delete's value, not the
first applied value `some 1`. -/
theorem delete_twice_overwrite_cex :
    (applyEvent (applyEvent [actRec] (.userDeleted "u1") 1) (.userDeleted "u1") 2).map
      (fun r => r.deletedAt) = [some 2]
    ∧ (some 2 : Option Nat) ≠ some 1 := by
  constructor
  · rfl
  · decide

/-- Claim C1, witness: `user.updated` for the tombstoned `u1` rewrites the
mutable fields in place (without touching `deletedAt`). -/
theorem upsert_semantics_witness :
    ({ tombRec with
        email := getPrimaryEmail updData,
        name := updData.firstName ++ " " ++ updData.lastName,
        avatarUrl := updData.imageURL, updatedAt := 10 } : UserRecord)
      ∈ applyEvent [tombRec] (.userUpdated updData) 10 :=
  (upsert_semantics [tombRec] updData 10).2.2.2.1 tombRec (by decide) (by decide)

/-- Claim C2, witness: a `user.created` event on the empty store leaves one
row for its subject. -/
theorem upsert_idempotent_witness :
    countClerk (applyEvent [] (.userCreated updData) 3) "u1" = 1 :=
  (upsert_idempotent [] updData 3 9).2.2.1 (by decide)

/-- Claim C6, witness: the delete applied to `[actRec]` tombstones the row
at the delete's own timestamp. -/
theorem delete_semantics_witness :
    ({ actRec with deletedAt := some 4 } : UserRecord).deletedAt = some 4 :=
  (delete_semantics [actRec] "u1" 4 7).1 { actRec with deletedAt := some 4 }
    (by decide) (by decide)

/-! ## Claims about the Webhook Ingress -/

theorem svixVerify_false_of_stale (d : SvixDelivery) (now tol : Int)
    (h : tol < now - d.svixTimestamp ∨ tol < d.svixTimestamp - now) :
    svixVerify d now tol = false := by
  unfold svixVerify
  rcases h with h | h
  · have hd : decide (now - d.svixTimestamp ≤ tol) = false := decide_eq_false (by omega)
    simp [hd]
    intro _ _
    omega
  · have hd : decide (d.svixTimestamp - now ≤ tol) = false := decide_eq_false (by omega)
    simp [hd]
    intro _ _
    omega

/-- Claim C3 (corrected).  The handler has no `eventId` de-duplication: a
redelivered `(eventId, payload)` is fully re-processed, and its database
write runs again (see the counterexample).  What does hold: both deliveries
answer `200`, and re-processing at the same SQL timestamp leaves the store
exactly as after one processing, because every event write is idempotent. -/
theorem webhook_redelivery (s : Store) (d : SvixDelivery) (now tol : Int)
    (t : Nat) (ev : WebhookEvent)
    (hv : svixVerify d now tol = true) (hp : d.parsedEvent = some ev) :
    (clerkWebhookHandler s d now tol t).2 = 200
    ∧ (clerkWebhookHandler (clerkWebhookHandler s d now tol t).1 d now tol t).2 = 200
    ∧ clerkWebhookHandler (clerkWebhookHandler s d now tol t).1 d now tol t
        = clerkWebhookHandler s d now tol t := by
  simp [clerkWebhookHandler, hv, hp, applyEvent_idem]

/-- Claim C3, refuting instance: redelivering the same `(eventId, payload)`
at a later SQL time is not skipped — the second delivery performs a second
reconciliation write (the stored row changes again), though both answer
`200`. -/
theorem webhook_no_dedup_cex :
    (clerkWebhookHandler [actRec] updDelivery 0 300 1).2 = 200
    ∧ (clerkWebhookHandler (clerkWebhookHandler [actRec] updDelivery 0 300 1).1
        updDelivery 0 300 2).2 = 200
    ∧ (clerkWebhookHandler (clerkWebhookHandler [actRec] updDelivery 0 300 1).1
        updDelivery 0 300 2).1
      ≠ (clerkWebhookHandler [actRec] updDelivery 0 300 1).1 := by
  refine ⟨rfl, rfl, by decide⟩

/-- Claim C3, witness: the concrete redelivery at the same SQL timestamp
returns the first delivery's result unchanged. -/
theorem webhook_redelivery_witness :
    clerkWebhookHandler (clerkWebhookHandler [actRec] updDelivery 0 300 1).1
        updDelivery 0 300 1
      = clerkWebhookHandler [actRec] updDelivery 0 300 1 :=
  (webhook_redelivery [actRec] updDelivery 0 300 1 (.userUpdated updData)
    (by decide) rfl).2.2

/-- Claim C4 (corrected).  Any svix verification failure — a wrong
signature, but also a timestamp outside the skew window — answers `401`
with no store write; the handler has no separate `400` path for a stale
timestamp (its only `400` responses are for an unreadable body or invalid
JSON), so a stale-but-correctly-signed delivery gets `401`, not `400`. -/
theorem webhook_reject_unverified (s : Store) (d : SvixDelivery)
    (now tol : Int) (t : Nat) :
    (svixVerify d now tol = false → clerkWebhookHandler s d now tol t = (s, 401))
    ∧ (d.signatureMatches = false → clerkWebhookHandler s d now tol t = (s, 401))
    ∧ (tol < now - d.svixTimestamp → clerkWebhookHandler s d now tol t = (s, 401))
    ∧ (tol < d.svixTimestamp - now → clerkWebhookHandler s d now tol t = (s, 401)) := by
  have h1 : svixVerify d now tol = false → clerkWebhookHandler s d now tol t = (s, 401) := by
    intro hv
    simp [clerkWebhookHandler, hv]
  refine ⟨h1, ?_, ?_, ?_⟩
  · intro hs
    exact h1 (by simp [svixVerify, hs])
  · intro ht
    exact h1 (svixVerify_false_of_stale d now tol (Or.inl ht))
  · intro ht
    exact h1 (svixVerify_false_of_stale d now tol (Or.inr ht))

/-- Claim C4, refuting instance: a delivery whose signature matches but
whose timestamp is outside the skew window is rejected with `401`, not the
`400` the claim states. -/
theorem webhook_stale_timestamp_cex :
    staleDelivery.signatureMatches = true
    ∧ (clerkWebhookHandler [] staleDelivery 0 300 7).2 = 401
    ∧ (401 : Nat) ≠ 400 := by
  refine ⟨rfl, rfl, by decide⟩

/-- Claim C4, witness: the stale delivery against a nonempty store is
rejected with `401` and the store is untouched. -/
theorem webhook_reject_unverified_witness :
    clerkWebhookHandler [actRec] staleDelivery 0 300 7 = ([actRec], 401) :=
  (webhook_reject_unverified [actRec] staleDelivery 0 300 7).2.2.2 (by decide)

/-! ## Claims about the Request Gate and the session path -/

/-- Claim C5 (confirmed).  Whenever the request context carries claims with
an empty `ActiveOrganizationID`, `RequireOrg` aborts with `403` and the
fixed error body — uniformly in everything else the claims contain; and on
the composed org-scoped route, any token that verifies to such claims is
answered `403`.  No identity store is consulted anywhere on this path. -/
theorem requireOrg_forbidden (now : Nat) (tok : Token) (cl : SessionClaims)
    (ho : cl.activeOrganizationID = "") :
    requireOrg (some cl) = .abort 403 "No organization selected"
    ∧ (verifyToken now tok = .ok cl → orgScopedRequest now (some tok) = .error 403) := by
  have hr : requireOrg (some cl) = .abort 403 "No organization selected" := by
    simp [requireOrg, ho]
  refine ⟨hr, ?_⟩
  intro hv
  simp [orgScopedRequest, clerkAuthMiddleware, hv, hr]

/-- Claim C5, witness: the no-organization token is answered `403` on an
org-scoped route. -/
theorem requireOrg_forbidden_witness :
    orgScopedRequest 5 (some noOrgToken) = .error 403 :=
  (requireOrg_forbidden 5 noOrgToken noOrgToken.claims rfl).2 rfl

/-- Claim C10 (confirmed).  `RequireOrg` has exactly two outcomes: abort
with `403` and body `{"error": "No organization selected"}`, or fall
through to the next handler; in particular a context carrying no claims at
all is aborted with `403` (not `401`). -/
theorem requireOrg_dichotomy :
    (∀ claims, requireOrg claims = .abort 403 "No organization selected"
        ∨ requireOrg claims = .next)
    ∧ requireOrg none = .abort 403 "No organization selected" := by
  refine ⟨?_, rfl⟩
  intro claims
  match claims with
  | none => exact Or.inl rfl
  | some cl =>
      by_cases h : cl.activeOrganizationID = ""
      · exact Or.inl (by simp [requireOrg, h])
      · exact Or.inr (by simp [requireOrg, h])

/-- Claim C7 (confirmed).  On the authenticated `/api` prefix: a missing
bearer token answers `401`; an unverifiable token answers `401`; and a
token whose expiry lies in the past answers `401` whatever its signature
bit says. -/
theorem auth_middleware_unauthorized (now : Nat) (s : Store) :
    (apiMeEndpoint now none s).1 = .err 401
    ∧ (∀ tok : Token, tok.parseable = false →
        (apiMeEndpoint now (some tok) s).1 = .err 401)
    ∧ (∀ tok : Token, tok.signatureValid = false →
        (apiMeEndpoint now (some tok) s).1 = .err 401)
    ∧ (∀ tok : Token, tok.expiresAt < now →
        (apiMeEndpoint now (some tok) s).1 = .err 401) := by
  refine ⟨rfl, ?_, ?_, ?_⟩
  · intro tok hp
    simp [apiMeEndpoint, clerkAuthMiddleware, verifyToken, hp]
  · intro tok hsig
    by_cases hp : tok.parseable = false
    · simp [apiMeEndpoint, clerkAuthMiddleware, verifyToken, hp]
    · simp [apiMeEndpoint, clerkAuthMiddleware, verifyToken, hp, hsig]
  · intro tok hexp
    by_cases hp : tok.parseable = false
    · simp [apiMeEndpoint, clerkAuthMiddleware, verifyToken, hp]
    · by_cases hsig : tok.signatureValid = false
      · simp [apiMeEndpoint, clerkAuthMiddleware, verifyToken, hp, hsig]
      · simp [apiMeEndpoint, clerkAuthMiddleware, verifyToken, hp, hsig,
          Nat.le_of_lt hexp]

/-- Claim C7, witness: an expired token (expiry 100, now 200) with a valid
signature is answered `401`. -/
theorem auth_middleware_unauthorized_witness :
    (apiMeEndpoint 200 (some orgToken) []).1 = .err 401 :=
  (auth_middleware_unauthorized 200 []).2.2.2 orgToken (by decide)

/-- Claim C8 (confirmed).  The `/api/me` session path leaves the Local
Identity Store exactly as it was, its response does not depend on the
store's contents, and for a token that verifies, the response fields are
copied verbatim from the token's claims. -/
theorem me_endpoint_frame (now : Nat) (auth : Option Token) (s s2 : Store) :
    (apiMeEndpoint now auth s).2 = s
    ∧ (apiMeEndpoint now auth s).1 = (apiMeEndpoint now auth s2).1
    ∧ (∀ tok cl, auth = some tok → verifyToken now tok = .ok cl →
        (apiMeEndpoint now auth s).1
          = .meOk cl.subject cl.activeOrganizationID cl.activeOrganizationSlug
              cl.activeOrganizationRole) := by
  refine ⟨?_, ?_, ?_⟩
  · unfold apiMeEndpoint
    cases clerkAuthMiddleware now auth <;> rfl
  · unfold apiMeEndpoint
    cases clerkAuthMiddleware now auth <;> rfl
  · intro tok cl ha hv
    subst ha
    simp [apiMeEndpoint, clerkAuthMiddleware, hv, getMeHandler]

/-- Claim C8, witness: the valid organization token's `/api/me` answer is
built from its claims, with the store passed through untouched. -/
theorem me_endpoint_frame_witness :
    (apiMeEndpoint 5 (some orgToken) [actRec]).1
      = .meOk "user_1" "org_1" "acme" "org:admin" :=
  (me_endpoint_frame 5 (some orgToken) [actRec] []).2.2 orgToken orgToken.claims
    rfl rfl

/-! ## Claims about the JIT resolver under interleaving -/

theorem getUserByClerkID_mem (s : Store) (cid : String) (r : UserRecord)
    (h : getUserByClerkID s cid = some r) : r ∈ s ∧ r.clerkId = cid := by
  unfold getUserByClerkID at h
  refine ⟨List.mem_of_find?_eq_some h, ?_⟩
  have hq := List.find?_some h
  simp only [Bool.and_eq_true, beq_iff_eq] at hq
  exact hq.1

/-- One interleaving step preserves the JIT invariant. -/
theorem jitStep_inv (sid : String) (profile : UserRecord) (hp : profile.clerkId = sid)
    (st : JitState) (who : Bool) (h : jitInv sid st) :
    jitInv sid (jitStep sid profile st who) := by
  obtain ⟨store, fetches, cA, cB⟩ := st
  obtain ⟨h1, h2, h3, h4⟩ := h
  simp only [jitInv] at *
  cases who
  case false =>
    cases cA
    case start =>
      simp only [jitStep, stepCall]
      cases hg : getUserByClerkID store sid
      case none =>
        simp only [CallPhase.fetchCredit, CallPhase.isDone] at *
        exact ⟨h1, by omega, (by intro hh; cases hh), h4⟩
      case some r =>
        obtain ⟨hmem, hcid⟩ := getUserByClerkID_mem store sid r hg
        simp only [CallPhase.fetchCredit, CallPhase.isDone] at *
        exact ⟨h1, by omega, fun _ => countClerk_one_le store sid r hmem hcid, h4⟩
    case needFetch =>
      simp only [jitStep, stepCall]
      simp only [CallPhase.fetchCredit, CallPhase.isDone] at *
      exact ⟨h1, by omega, (by intro hh; cases hh), h4⟩
    case gotProfile =>
      simp only [jitStep, stepCall, createUser]
      cases he : existsClerkId store profile.clerkId
      case true =>
        have hcnt : 1 ≤ countClerk store sid := by
          rw [hp] at he
          exact existsClerkId_true_count store sid he
        simp only [if_pos, if_neg, Bool.true_eq_false, reduceIte]
        simp only [CallPhase.fetchCredit, CallPhase.isDone] at *
        exact ⟨h1, by omega, fun _ => hcnt, h4⟩
      case false =>
        have hz : countClerk store sid = 0 := by
          rw [hp] at he
          exact (countClerk_eq_zero_iff store sid).mpr he
        have hone : countClerk (store ++ [profile]) sid = 1 := by
          rw [countClerk_append, hz]
          simp [countClerk, hp]
        simp only [Bool.false_eq_true, reduceIte]
        simp only [CallPhase.fetchCredit, CallPhase.isDone] at *
        exact ⟨by omega, by omega, fun _ => by omega, fun _ => by omega⟩
    case doneOk =>
      simp only [jitStep, stepCall]
      exact ⟨h1, h2, h3, h4⟩
    case doneErr =>
      simp only [jitStep, stepCall]
      exact ⟨h1, h2, h3, h4⟩
  case true =>
    cases cB
    case start =>
      simp only [jitStep, stepCall]
      cases hg : getUserByClerkID store sid
      case none =>
        simp only [CallPhase.fetchCredit, CallPhase.isDone] at *
        exact ⟨h1, by omega, h3, (by intro hh; cases hh)⟩
      case some r =>
        obtain ⟨hmem, hcid⟩ := getUserByClerkID_mem store sid r hg
        simp only [CallPhase.fetchCredit, CallPhase.isDone] at *
        exact ⟨h1, by omega, h3, fun _ => countClerk_one_le store sid r hmem hcid⟩
    case needFetch =>
      simp only [jitStep, stepCall]
      simp only [CallPhase.fetchCredit, CallPhase.isDone] at *
      exact ⟨h1, by omega, h3, (by intro hh; cases hh)⟩
    case gotProfile =>
      simp only [jitStep, stepCall, createUser]
      cases he : existsClerkId store profile.clerkId
      case true =>
        have hcnt : 1 ≤ countClerk store sid := by
          rw [hp] at he
          exact existsClerkId_true_count store sid he
        simp only [if_pos, if_neg, Bool.true_eq_false, reduceIte]
        simp only [CallPhase.fetchCredit, CallPhase.isDone] at *
        exact ⟨h1, by omega, h3, fun _ => hcnt⟩
      case false =>
        have hz : countClerk store sid = 0 := by
          rw [hp] at he
          exact (countClerk_eq_zero_iff store sid).mpr he
        have hone : countClerk (store ++ [profile]) sid = 1 := by
          rw [countClerk_append, hz]
          simp [countClerk, hp]
        simp only [Bool.false_eq_true, reduceIte]
        simp only [CallPhase.fetchCredit, CallPhase.isDone] at *
        exact ⟨by omega, by omega, fun _ => by omega, fun _ => by omega⟩
    case doneOk =>
      simp only [jitStep, stepCall]
      exact ⟨h1, h2, h3, h4⟩
    case doneErr =>
      simp only [jitStep, stepCall]
      exact ⟨h1, h2, h3, h4⟩

/-- Every interleaving schedule preserves the JIT invariant. -/
theorem runJit_inv (sid : String) (profile : UserRecord) (hp : profile.clerkId = sid) :
    ∀ (sched : List Bool) (st : JitState),
      jitInv sid st → jitInv sid (runJit sid profile sched st)
  | [], _, h => h
  | w :: rest, st, h =>
      runJit_inv sid profile hp rest (jitStep sid profile st w)
        (jitStep_inv sid profile hp st w h)

/-- Claim C9 (corrected).  `GetOrCreateUser` has no coalescing: two
simultaneous calls for an unknown subject can each issue its own outbound
profile fetch (see the counterexample).  What does hold, for every
interleaving of two calls starting from a store with no row for the
subject: at most one row for the subject ever exists, at most two outbound
fetches are issued (one per call), and once either call has terminated —
successfully or with the unique-key insert error — exactly one row for the
subject exists. -/
theorem jit_no_coalescing (sched : List Bool) (s0 : Store) (sid : String)
    (profile : UserRecord) (hp : profile.clerkId = sid)
    (h0 : countClerk s0 sid = 0) :
    countClerk (runJit sid profile sched ⟨s0, 0, .start, .start⟩).store sid ≤ 1
    ∧ (runJit sid profile sched ⟨s0, 0, .start, .start⟩).fetches ≤ 2
    ∧ ((runJit sid profile sched ⟨s0, 0, .start, .start⟩).callA.isDone = true →
        countClerk (runJit sid profile sched ⟨s0, 0, .start, .start⟩).store sid = 1)
    ∧ ((runJit sid profile sched ⟨s0, 0, .start, .start⟩).callB.isDone = true →
        countClerk (runJit sid profile sched ⟨s0, 0, .start, .start⟩).store sid = 1) := by
  have hstart : jitInv sid ⟨s0, 0, .start, .start⟩ := by
    refine ⟨(by show countClerk s0 sid ≤ 1; omega), ?_, ?_, ?_⟩
    · simp [CallPhase.fetchCredit]
    · intro hh
      simp [CallPhase.isDone] at hh
    · intro hh
      simp [CallPhase.isDone] at hh
  obtain ⟨i1, i2, i3, i4⟩ := runJit_inv sid profile hp sched ⟨s0, 0, .start, .start⟩ hstart
  refine ⟨i1, ?_, ?_, ?_⟩
  · omega
  · intro hh
    have := i3 hh
    omega
  · intro hh
    have := i4 hh
    omega

/-- Claim C9, refuting instance: in the interleaving where both calls run
their (missing) lookup before either fetches, each call issues its own
outbound profile fetch — two fetches, not the single coalesced fetch the
claim states. -/
theorem jit_double_fetch_cex :
    (runJit "u2" jitProfile [false, true, false, true]
        ⟨[], 0, .start, .start⟩).fetches = 2
    ∧ (2 : Nat) ≠ 1 := by
  refine ⟨rfl, by decide⟩

/-- Claim C9, witness: running both calls to completion from the empty
store leaves exactly one row for the subject. -/
theorem jit_no_coalescing_witness :
    countClerk (runJit "u2" jitProfile [false, true, false, true, false, true]
        ⟨[], 0, .start, .start⟩).store "u2" = 1 :=
  (jit_no_coalescing [false, true, false, true, false, true] [] "u2" jitProfile
    rfl rfl).2.2.1 (by decide)

end Yata
